import Mathlib

/-!
Verification model of the query-validation and safe-execution pipeline of
spanner_agent/agent.py (Cloud Spanner natural-language agent).

SQL text is modelled as List Char (ASCII model of Python str).  The regular
expressions of SpannerSecurityValidator are embedded as decidable scanners
over the upper-cased, stripped text, mirroring Python re semantics for the
exact patterns in the source (re.IGNORECASE | re.MULTILINE, no re.DOTALL).
Wall-clock timestamps are threaded as an explicit parameter; audit events and
database interactions are collected as explicit traces.
-/

/-- ASCII model of the whitespace class used by Python str.strip and re \s. -/
def isSpace (c : Char) : Bool :=
  c = ' ' || c = '\t' || c = '\n' || c = '\r' || c = '\x0b' || c = '\x0c'

/-- ASCII model of the regex word class \w (letters, digits, underscore). -/
def wordChar (c : Char) : Bool :=
  c.isAlphanum || c = '_'

/-- ASCII model of Python str.upper applied per character. -/
def upperChar (c : Char) : Char := c.toUpper

/-- Remove trailing whitespace (right half of Python str.strip). -/
def stripEndChars (s : List Char) : List Char :=
  (s.reverse.dropWhile isSpace).reverse

/-- Python str.strip: remove leading and trailing whitespace. -/
def stripChars (s : List Char) : List Char :=
  stripEndChars (s.dropWhile isSpace)

/-- sql_upper = sql.upper().strip()  (agent.py line 123). -/
def sqlUpper (s : List Char) : List Char :=
  stripChars (s.map upperChar)

/-- Does p occur as a contiguous substring? (model of Python `p in s` /
re.search for a literal pattern). -/
def containsSub (p : List Char) : List Char → Bool
  | [] => p.isEmpty
  | c :: r => p.isPrefixOf (c :: r) || containsSub p r

/-- One keyword alternative of a \b(K1|K2|...)\b pattern matches at the head
of t: the keyword is a prefix and a word boundary follows it. -/
def kwHitHere (kw t : List Char) : Bool :=
  kw.isPrefixOf t &&
    (match t.drop kw.length with
     | [] => true
     | c :: _ => !wordChar c)

/-- Scanner for \b(K1|...|Kn)\b over the whole text.  atB records whether a
word boundary holds before the current position (true at the start of the
text or after a non-word character; every keyword begins with a word
character, so \b before the keyword is exactly atB). -/
def scanKw (kws : List (List Char)) : Bool → List Char → Bool
  | _, [] => false
  | atB, c :: r =>
    (atB && kws.any (fun kw => kwHitHere kw (c :: r))) || scanKw kws (!wordChar c) r

/-- Keywords of DANGEROUS_PATTERNS[0] (agent.py line 94). -/
def MUTATION_KWS : List (List Char) :=
  [ "DELETE".toList, "DROP".toList, "TRUNCATE".toList, "ALTER".toList,
    "CREATE".toList, "INSERT".toList, "UPDATE".toList, "GRANT".toList,
    "REVOKE".toList ]

/-- Keywords of DANGEROUS_PATTERNS[1] (line 95); sp_ and xp_ are written
upper-case because the scanned text is upper-cased and the search is
case-insensitive. -/
def PROC_KWS : List (List Char) :=
  [ "EXEC".toList, "EXECUTE".toList, "SP_".toList, "XP_".toList ]

/-- Pattern `--.*$` with re.MULTILINE (line 96): `.*` may be empty and `$`
matches at each line end, so the pattern matches iff the text contains the
two-character sequence `--`. -/
def lineCommentHit (s : List Char) : Bool :=
  containsSub ("--").toList s

/-- After an opening `/*`: does `.*?\*/` match?  Without re.DOTALL, `.` does
not match a newline, so the closing `*/` must be found before any newline. -/
def blockClose : List Char → Bool
  | [] => false
  | c :: r =>
    if c = '*' ∧ r.head? = some '/' then true
    else if c = '\n' then false
    else blockClose r

/-- Does `/\*.*?\*/` (line 97) match starting exactly here? -/
def blockStart : List Char → Bool
  | '/' :: '*' :: r => blockClose r
  | _ => false

/-- Pattern `/\*.*?\*/` anywhere in the text. -/
def blockCommentHit : List Char → Bool
  | [] => false
  | c :: r => blockStart (c :: r) || blockCommentHit r

/-- After a `;`: does `\s*$` match with re.MULTILINE?  `\s*` consumes
whitespace and `$` matches at the end of the text or just before a
newline. -/
def semiClose : List Char → Bool
  | [] => true
  | c :: r =>
    if c = '\n' then true
    else if isSpace c then semiClose r
    else false

/-- Pattern `;\s*$` (line 98) anywhere in the text. -/
def semiEolHit : List Char → Bool
  | [] => false
  | c :: r => (c = ';' && semiClose r) || semiEolHit r

/-- Consume `\s+` greedily: at least one whitespace character, then all
following whitespace (the next pattern element begins with a non-space
letter, so the greedy run is exactly what any match consumes). -/
def wsTail : List Char → Option (List Char)
  | [] => none
  | c :: r => if isSpace c then some (r.dropWhile isSpace) else none

/-- Does `UNION\s+ALL\s+SELECT` (line 99) match starting exactly here? -/
def unionAt (t : List Char) : Bool :=
  ("UNION").toList.isPrefixOf t &&
    (match wsTail (t.drop 5) with
     | none => false
     | some t2 =>
       ("ALL").toList.isPrefixOf t2 &&
         (match wsTail (t2.drop 3) with
          | none => false
          | some t3 => ("SELECT").toList.isPrefixOf t3))

/-- Pattern `UNION\s+ALL\s+SELECT` anywhere in the text. -/
def unionHit : List Char → Bool
  | [] => false
  | c :: r => unionAt (c :: r) || unionHit r

/-- Pattern `INFORMATION_SCHEMA\.(TABLES|COLUMNS)` (line 100). -/
def infoSchemaHit (s : List Char) : Bool :=
  containsSub ("INFORMATION_SCHEMA.TABLES").toList s ||
    containsSub ("INFORMATION_SCHEMA.COLUMNS").toList s

/-- Some DANGEROUS_PATTERNS entry matches the (upper-cased, stripped) text. -/
def dangerousAny (s : List Char) : Bool :=
  scanKw MUTATION_KWS true s || scanKw PROC_KWS true s || lineCommentHit s ||
    blockCommentHit s || semiEolHit s || unionHit s || infoSchemaHit s

/-- First DANGEROUS_PATTERNS entry that matches, with the raw pattern text
used in the rejection message (the for-loop of lines 126-128). -/
def firstDangerous (s : List Char) : Option String :=
  if scanKw MUTATION_KWS true s then
    some "\\b(DELETE|DROP|TRUNCATE|ALTER|CREATE|INSERT|UPDATE|GRANT|REVOKE)\\b"
  else if scanKw PROC_KWS true s then
    some "\\b(EXEC|EXECUTE|sp_|xp_)\\b"
  else if lineCommentHit s then
    some "--.*$"
  else if blockCommentHit s then
    some "/\\*.*?\\*/"
  else if semiEolHit s then
    some ";\\s*$"
  else if unionHit s then
    some "UNION\\s+ALL\\s+SELECT"
  else if infoSchemaHit s then
    some "INFORMATION_SCHEMA\\.(TABLES|COLUMNS)"
  else
    none

/-- re.match of one ALLOWED_PATTERNS entry `^\s*KW\s+` (lines 104-109): the
leading `\s*` is forced to consume exactly the leading whitespace (each
keyword begins with a non-space letter), then the keyword, then at least one
whitespace character. -/
def matchStart (kw : List Char) (s : List Char) : Bool :=
  let t := s.dropWhile isSpace
  kw.isPrefixOf t &&
    (match t.drop kw.length with
     | [] => false
     | c :: _ => isSpace c)

/-- Keywords of ALLOWED_PATTERNS. -/
def ALLOWED_KWS : List (List Char) :=
  [ "SELECT".toList, "WITH".toList, "SHOW".toList, "DESCRIBE".toList ]

/-- any(re.match(pattern, sql_upper) for pattern in ALLOWED_PATTERNS). -/
def allowedAny (s : List Char) : Bool :=
  ALLOWED_KWS.any (fun kw => matchStart kw s)

/-- sql_upper.count of the literal SELECT (line 136).  Python str.count is
non-overlapping, but SELECT has no non-trivial border, so two occurrences can
never overlap and counting a match at every position is the same number. -/
def countSelect : List Char → Nat
  | [] => 0
  | c :: r =>
    (if ("SELECT").toList.isPrefixOf (c :: r) then 1 else 0) + countSelect r

/-- A keyword of kws occurs in t with a regex word boundary on each side:
there is a decomposition a ++ kw ++ b where a does not end in a word
character and b does not begin with one. -/
def KwOccurs (kws : List (List Char)) (t : List Char) : Prop :=
  ∃ a kw b, t = a ++ (kw ++ b) ∧ kw ∈ kws ∧
    (∀ a' c, a = a' ++ [c] → wordChar c = false) ∧
    (b = [] ∨ ∃ c b', b = c :: b' ∧ wordChar c = false)

/-- The denylist of DANGEROUS_PATTERNS as structural occurrence statements
over the scanned (upper-cased, stripped) text: a mutation keyword, a
stored-procedure marker, a single-line comment marker, a block comment
contained within one line, a statement separator at the end of a line, the
UNION ALL SELECT idiom, or one of the two INFORMATION_SCHEMA views. -/
def DenylistOccurs (t : List Char) : Prop :=
  KwOccurs MUTATION_KWS t ∨
  KwOccurs PROC_KWS t ∨
  (∃ a b, t = a ++ ('-' :: '-' :: b)) ∨
  (∃ a m b, t = a ++ ('/' :: '*' :: (m ++ ('*' :: '/' :: b))) ∧
    ∀ c ∈ m, c ≠ '\n') ∨
  (∃ a w r, t = a ++ (';' :: (w ++ r)) ∧
    (∀ c ∈ w, isSpace c = true ∧ c ≠ '\n') ∧
    (r = [] ∨ ∃ r', r = '\n' :: r')) ∨
  (∃ a c1 w1 c2 w2 b, t = a ++ (("UNION").toList ++
      (c1 :: (w1 ++ (("ALL").toList ++
        (c2 :: (w2 ++ (("SELECT").toList ++ b))))))) ∧
    isSpace c1 = true ∧ (∀ c ∈ w1, isSpace c = true) ∧
    isSpace c2 = true ∧ (∀ c ∈ w2, isSpace c = true)) ∨
  (∃ a b, t = a ++ (("INFORMATION_SCHEMA.TABLES").toList ++ b)) ∨
  (∃ a b, t = a ++ (("INFORMATION_SCHEMA.COLUMNS").toList ++ b))

/-- OperationType enumeration (agent.py lines 54-60). -/
inductive OperationType where
  | read
  | schema
  | metadata
  | monitoring
  | admin_read
deriving DecidableEq

/-- SecurityContext dataclass (lines 75-87), with the __post_init__ default
for allowed_operations. -/
structure SecurityContext where
  user_id : String
  session_id : String
  read_only : Bool := true
  max_rows : Nat := 1000
  query_timeout : Nat := 30
  allowed_operations : List OperationType :=
    [OperationType.read, OperationType.schema, OperationType.metadata]
deriving DecidableEq

/-- SpannerSecurityValidator.validate_query (lines 111-142): returns
(is_valid, error_message). -/
def validate_query (sql : List Char) (ctx : SecurityContext) : Bool × String :=
  let u := sqlUpper sql
  match firstDangerous u with
  | some p => (false, "Query contains forbidden pattern: " ++ p)
  | none =>
    if ctx.read_only && !allowedAny u then
      (false, "Read-only mode: Only SELECT queries are allowed")
    else if countSelect u > 3 then
      (false, "Query too complex: Too many SELECT statements")
    else if sql.length > 10000 then
      (false, "Query too long: Maximum 10,000 characters allowed")
    else
      (true, "")

/-- Process-wide configuration read by SpannerAgent.__init__ from the
environment (agent.py lines 147-155). -/
structure AgentConfig where
  project_id : String
  instance_id : String
  database_id : String
  read_only : Bool
  max_rows : Nat
  query_timeout : Nat
  enable_audit : Bool
deriving DecidableEq

/-- The database collaborator: outcome of snapshot.execute_sql for one
statement.  ok carries the result-schema field names, the ordered rows
(values modelled as strings) and the wall-clock fetch time (oracle
supplied); err models the call raising an exception with message msg. -/
inductive DbOutcome where
  | ok (fields : List String) (rows : List (List String)) (elapsed : Nat)
  | err (msg : String)
deriving DecidableEq

/-- QueryResult dataclass (lines 62-73).  A row dict is modelled as the
association list produced by zip(field_names, values). -/
structure QueryResult where
  success : Bool
  data : List (List (String × String))
  row_count : Nat
  execution_time : Nat
  sql : List Char
  timestamp : String
  user_id : String
  session_id : String
  error : Option String := none
deriving DecidableEq

/-- The two exception kinds execute_query can raise (lines 206-208):
ValueError on security rejection, RuntimeError (with the underlying cause
chained via `from e`) on execution failure. -/
inductive ExecError where
  | valueError (msg : String)
  | runtimeError (msg : String) (cause : String)
deriving DecidableEq

/-- Python str(e): the exception message. -/
def errStr : ExecError → String
  | .valueError m => m
  | .runtimeError m _ => m

/-- Outcome of a call that either returns a QueryResult or raises. -/
inductive ExecResult where
  | res (r : QueryResult)
  | raised (e : ExecError)
deriving DecidableEq

/-- One audit record as assembled by _audit_log (lines 180-190); the
timestamp field is wall-clock time and is not modelled. -/
structure AuditEvent where
  event_type : String
  user_id : String
  session_id : String
  sql : List Char
  details : String
  project_id : String
  instance_id : String
  database_id : String
deriving DecidableEq

/-- _audit_log (lines 175-192): emits one event, or nothing at all when
audit logging is disabled (lines 177-178). -/
def auditLog (cfg : AgentConfig) (event_type : String) (sql : List Char)
    (user_id session_id details : String) : List AuditEvent :=
  if cfg.enable_audit then
    [{ event_type := event_type, user_id := user_id, session_id := session_id,
       sql := sql, details := details, project_id := cfg.project_id,
       instance_id := cfg.instance_id, database_id := cfg.database_id }]
  else
    []

/-- Result of one agent operation together with its observable trace: the
audit events emitted, the SQL statements actually sent to the database, and
the number of snapshots opened. -/
structure Tr (α : Type) where
  result : α
  events : List AuditEvent
  dbCalls : List (List Char)
  snapshots : Nat

namespace SpannerAgent

/-- _create_security_context (lines 165-173). -/
def createSecurityContext (cfg : AgentConfig) (user_id session_id : String) :
    SecurityContext :=
  { user_id := user_id, session_id := session_id, read_only := cfg.read_only,
    max_rows := cfg.max_rows, query_timeout := cfg.query_timeout }

/-- execute_query (lines 194-267).  db is the database collaborator; now is
the wall clock used for the result timestamp. -/
def execute_query (cfg : AgentConfig) (db : List Char → DbOutcome)
    (sql : List Char) (user_id session_id : String) (now : String) :
    Tr ExecResult :=
  let ctx := createSecurityContext cfg user_id session_id
  let v := validate_query sql ctx
  if v.1 = false then
    -- lines 217-219: audit query_rejected, raise ValueError
    { result := .raised (.valueError
        ("Query rejected for security reasons: " ++ v.2)),
      events := auditLog cfg "query_rejected" sql user_id session_id v.2,
      dbCalls := [], snapshots := 0 }
  else
    -- line 222: audit query_execution_start, then open a snapshot
    let startEv := auditLog cfg "query_execution_start" sql user_id session_id ""
    match db sql with
    | .err e =>
      -- lines 264-267: audit query_execution_error, raise RuntimeError from e
      let error_msg := "Query execution failed: " ++ e
      { result := .raised (.runtimeError error_msg e),
        events := startEv ++
          auditLog cfg "query_execution_error" sql user_id session_id error_msg,
        dbCalls := [sql], snapshots := 1 }
    | .ok fields rows elapsed =>
      -- lines 236-256: consume at most max_rows rows, zip with field names
      let results := (rows.take ctx.max_rows).map (fun r => List.zip fields r)
      let result : QueryResult :=
        { success := true, data := results, row_count := results.length,
          execution_time := elapsed, sql := sql, timestamp := now,
          user_id := user_id, session_id := session_id, error := none }
      { result := .res result,
        events := startEv ++
          auditLog cfg "query_execution_success" sql user_id session_id
            ("Returned " ++ toString results.length ++ " rows in " ++
              toString elapsed ++ "s"),
        dbCalls := [sql], snapshots := 1 }

end SpannerAgent

/-- One column entry of the schema structure (lines 329-335). -/
structure ColumnInfo where
  name : String
  type : String
  nullable : Bool
  position : String
  default_value : String
deriving DecidableEq

/-- One index descriptor (lines 349-354). -/
structure IndexInfo where
  name : String
  type : String
  unique : Bool
  null_filtered : Bool
deriving DecidableEq

/-- Per-table part of schema_info["tables"] (lines 324-327). -/
structure TableInfo where
  columns : List ColumnInfo
  column_count : Nat
deriving DecidableEq

/-- The nested structure built by get_schema_info on success (lines
309-359); Python dicts keep insertion order, modelled as association
lists. -/
structure SchemaInfo where
  tables : List (String × TableInfo)
  indexes : List (String × List IndexInfo)
  total_tables : Nat
  total_columns : Nat
  total_indexes : Nat
  last_updated : String
deriving DecidableEq

/-- row["KEY"] on a row dict modelled as an association list (the
introspection result schema always carries these keys; a missing key is
modelled as the empty string). -/
def rowGet (row : List (String × String)) (key : String) : String :=
  match row.find? (fun p => p.fst == key) with
  | some p => p.snd
  | none => ""

/-- Lines 321-339: insert one column row under its table name, creating the
table entry on first sight and appending in row order. -/
def addColumn (ts : List (String × TableInfo)) (tname : String)
    (ci : ColumnInfo) : List (String × TableInfo) :=
  if ts.any (fun p => p.fst == tname) then
    ts.map (fun p =>
      if p.fst == tname then
        (p.fst, { columns := p.snd.columns ++ [ci],
                  column_count := p.snd.column_count + 1 })
      else p)
  else
    ts ++ [(tname, { columns := [ci], column_count := 1 })]

/-- Lines 341-357: insert one index row under its table name. -/
def addIndex (ts : List (String × List IndexInfo)) (tname : String)
    (ii : IndexInfo) : List (String × List IndexInfo) :=
  if ts.any (fun p => p.fst == tname) then
    ts.map (fun p => if p.fst == tname then (p.fst, p.snd ++ [ii]) else p)
  else
    ts ++ [(tname, [ii])]

/-- Aggregation of the two introspection result sets (lines 309-359). -/
def buildSchemaInfo (tdata idata : List (List (String × String)))
    (now : String) : SchemaInfo :=
  let tables := tdata.foldl (fun acc row =>
    addColumn acc (rowGet row "TABLE_NAME")
      { name := rowGet row "COLUMN_NAME", type := rowGet row "SPANNER_TYPE",
        nullable := rowGet row "IS_NULLABLE" == "YES",
        position := rowGet row "ORDINAL_POSITION",
        default_value := rowGet row "COLUMN_DEFAULT" }) []
  let idxs := idata.foldl (fun acc row =>
    addIndex acc (rowGet row "TABLE_NAME")
      { name := rowGet row "INDEX_NAME", type := rowGet row "INDEX_TYPE",
        unique := rowGet row "IS_UNIQUE" == "YES",
        null_filtered := rowGet row "IS_NULL_FILTERED" == "YES" }) []
  { tables := tables, indexes := idxs, total_tables := tables.length,
    total_columns := tdata.length, total_indexes := idata.length,
    last_updated := now }

/-- get_schema_info either returns the nested structure or raises
RuntimeError (line 367). -/
inductive SchemaResult where
  | info (s : SchemaInfo)
  | raised (msg : String)
deriving DecidableEq

/-- tables_query string literal of get_schema_info (lines 278-289). -/
def schemaTablesQuery : List Char :=
  ("\n                SELECT \n                    TABLE_NAME,\n                    COLUMN_NAME,\n                    SPANNER_TYPE,\n                    IS_NULLABLE,\n                    ORDINAL_POSITION,\n                    COLUMN_DEFAULT\n                FROM INFORMATION_SCHEMA.COLUMNS\n                WHERE TABLE_SCHEMA = \x27\x27\n                ORDER BY TABLE_NAME, ORDINAL_POSITION\n            ").toList

/-- indexes_query string literal of get_schema_info (lines 292-302). -/
def schemaIndexesQuery : List Char :=
  ("\n                SELECT \n                    TABLE_NAME,\n                    INDEX_NAME,\n                    INDEX_TYPE,\n                    IS_UNIQUE,\n                    IS_NULL_FILTERED\n                FROM INFORMATION_SCHEMA.INDEXES\n                WHERE TABLE_SCHEMA = \x27\x27\n                ORDER BY TABLE_NAME, INDEX_NAME\n            ").toList

namespace SpannerAgent

/-- get_schema_info (lines 269-367): two fixed introspection statements via
execute_query; any exception is wrapped into RuntimeError after auditing a
schema_query_error event. -/
def get_schema_info (cfg : AgentConfig) (db : List Char → DbOutcome)
    (now : String) : Tr SchemaResult :=
  let t1 := execute_query cfg db schemaTablesQuery "system" "schema_query" now
  match t1.result with
  | .raised e =>
    let msg := "Failed to retrieve schema information: " ++ errStr e
    { result := .raised msg,
      events := t1.events ++
        auditLog cfg "schema_query_error" ("schema_query").toList "system"
          "schema_query" msg,
      dbCalls := t1.dbCalls, snapshots := t1.snapshots }
  | .res r1 =>
    let t2 := execute_query cfg db schemaIndexesQuery "system" "schema_query" now
    match t2.result with
    | .raised e =>
      let msg := "Failed to retrieve schema information: " ++ errStr e
      { result := .raised msg,
        events := t1.events ++ t2.events ++
          auditLog cfg "schema_query_error" ("schema_query").toList "system"
            "schema_query" msg,
        dbCalls := t1.dbCalls ++ t2.dbCalls,
        snapshots := t1.snapshots + t2.snapshots }
    | .res r2 =>
      { result := .info (buildSchemaInfo r1.data r2.data now),
        events := t1.events ++ t2.events,
        dbCalls := t1.dbCalls ++ t2.dbCalls,
        snapshots := t1.snapshots + t2.snapshots }

end SpannerAgent

/-- The health structure assembled by get_database_health (lines 377-397);
nested dicts are flattened into fields. -/
structure HealthInfo where
  status : String
  timestamp : String
  project_id : String
  instance_id : String
  database_id : String
  connection_status : String
  connection_tested_at : String
  connection_error : Option String
  last_query_time : Option String
  average_query_time : Nat
  total_queries : Nat
  cpu_usage : String
  memory_usage : String
  storage_usage : String
deriving DecidableEq

/-- QueryResult.timestamp is a str (set to datetime.utcnow().isoformat() in
execute_query), so the attribute access result.timestamp.isoformat() on line
404 raises AttributeError on every successful probe; this models that
dynamic failure. -/
def strIsoformat (_ : String) : Except String String :=
  Except.error "\x27str\x27 object has no attribute \x27isoformat\x27"

namespace SpannerAgent

/-- get_database_health (lines 369-421).  The inner try (lines 400-410) runs
the probe query and, on its success, executes line 404 which raises
AttributeError (see strIsoformat); the inner except then marks the database
unhealthy.  Nothing after the inner try can raise, so the outer except
(lines 414-421) is unreachable and the function always returns a status
structure. -/
def get_database_health (cfg : AgentConfig) (db : List Char → DbOutcome)
    (now : String) : Tr HealthInfo :=
  let base : HealthInfo :=
    { status := "healthy", timestamp := now, project_id := cfg.project_id,
      instance_id := cfg.instance_id, database_id := cfg.database_id,
      connection_status := "connected", connection_tested_at := now,
      connection_error := none, last_query_time := none,
      average_query_time := 0, total_queries := 0, cpu_usage := "unknown",
      memory_usage := "unknown", storage_usage := "unknown" }
  let t := execute_query cfg db ("SELECT 1 as health_check").toList "system"
    "health_check" now
  match t.result with
  | .raised e =>
    let h := { base with
      status := "unhealthy",
      connection_status := "disconnected",
      connection_error := some (errStr e) }
    { result := h, events := t.events, dbCalls := t.dbCalls,
      snapshots := t.snapshots }
  | .res r =>
    match strIsoformat r.timestamp with
    | .error e2 =>
      let h := { base with
        status := "unhealthy",
        connection_status := "disconnected",
        connection_error := some e2 }
      { result := h, events := t.events, dbCalls := t.dbCalls,
        snapshots := t.snapshots }
    | .ok tq =>
      let h := { base with last_query_time := some tq, total_queries := 1 }
      { result := h, events := t.events, dbCalls := t.dbCalls,
        snapshots := t.snapshots }

end SpannerAgent

/-- The analysis structure of analyze_query_performance (lines 434-443);
the nested analysis dict is flattened into fields. -/
structure PerfAnalysis where
  sql : List Char
  timestamp : String
  complexity : String
  estimated_cost : String
  recommendations : List String
  execution_plan : Option String
deriving DecidableEq

/-- The sequential recommendation / complexity logic of lines 446-477,
operating purely on the query text: each check appends one fixed
recommendation string and overwrites the complexity level, then the
recommendation count overrides the level (lines 474-477).  Note the LIKE
check (line 461) looks for the literal text LIKE \x27%pattern%\x27 in the
original (non-uppercased) sql.  Returns (recommendations, complexity). -/
def perfCore (sqlChars : List Char) : List String × String :=
  let u := sqlChars.map upperChar
  let s1 : List String × String :=
    if containsSub ("SELECT *").toList u then
      ([ "Consider specifying only needed columns instead of SELECT *" ],
        "medium")
    else ([], "low")
  let s2 : List String × String :=
    if containsSub ("ORDER BY").toList u && !containsSub ("LIMIT").toList u then
      (s1.1 ++ [ "Add LIMIT clause when using ORDER BY to improve performance" ],
        "medium")
    else s1
  let s3 : List String × String :=
    if containsSub ("LIKE \x27%pattern%\x27").toList sqlChars ||
        containsSub ("LIKE \x27pattern%\x27").toList sqlChars then
      (s2.1 ++ [ "Consider using indexes for LIKE queries with wildcards" ],
        "high")
    else s2
  let s4 : List String × String :=
    if containsSub ("JOIN").toList u then
      (s3.1 ++ [ "Ensure proper indexes exist on JOIN columns" ], "medium")
    else s3
  let comp :=
    if s4.1.length > 3 then "high"
    else if s4.1.length > 1 then "medium"
    else s4.2
  (s4.1, comp)

/-- estimated_cost from the final complexity (lines 479-483). -/
def perfCost (comp : String) : String :=
  if comp = "high" then "high"
  else if comp = "medium" then "medium"
  else "low"

namespace SpannerAgent

/-- analyze_query_performance (lines 423-493): pure text analysis, no
database access (the try body cannot raise, so the except branch of lines
487-493 is unreachable). -/
def analyze_query_performance (sql : List Char) (now : String) : PerfAnalysis :=
  let rc := perfCore sql
  { sql := sql, timestamp := now, complexity := rc.2,
    estimated_cost := perfCost rc.2, recommendations := rc.1,
    execution_plan := none }

end SpannerAgent

/-- Column detail entry of get_table_statistics (lines 554-561). -/
structure StatColumnInfo where
  name : String
  type : String
  nullable : Bool
  position : String
deriving DecidableEq

/-- The dictionary returned by get_table_statistics: either the statistics
structure (lines 535-551) or the error dict of lines 578-582. -/
inductive TableStatsOut where
  | stats (table_name : List Char) (timestamp : String)
      (column_count : Nat) (column_details : List StatColumnInfo)
      (index_count : Nat) (index_details : List IndexInfo)
      (project_id instance_id database_id : String)
  | errDict (error : String) (table_name : List Char) (timestamp : String)
deriving DecidableEq

/-- Fixed part of the columns_query f-string (lines 507-516) before the
interpolated table name. -/
def statsColsPre : List Char :=
  ("\n                SELECT \n                    COLUMN_NAME,\n                    SPANNER_TYPE,\n                    IS_NULLABLE,\n                    ORDINAL_POSITION\n                FROM INFORMATION_SCHEMA.COLUMNS\n                WHERE TABLE_NAME = \x27").toList

/-- Fixed part of the columns_query f-string after the table name. -/
def statsColsPost : List Char :=
  ("\x27 AND TABLE_SCHEMA = \x27\x27\n                ORDER BY ORDINAL_POSITION\n            ").toList

/-- columns_query with the caller-supplied table name interpolated directly
into the SQL text (the unescaped-interpolation vector noted in the spec). -/
def statsColumnsQuery (table_name : List Char) : List Char :=
  statsColsPre ++ table_name ++ statsColsPost

/-- Fixed part of the indexes_query f-string (lines 519-528) before the
interpolated table name. -/
def statsIdxPre : List Char :=
  ("\n                SELECT \n                    INDEX_NAME,\n                    INDEX_TYPE,\n                    IS_UNIQUE,\n                    IS_NULL_FILTERED\n                FROM INFORMATION_SCHEMA.INDEXES\n                WHERE TABLE_NAME = \x27").toList

/-- Fixed part of the indexes_query f-string after the table name. -/
def statsIdxPost : List Char :=
  ("\x27 AND TABLE_SCHEMA = \x27\x27\n                ORDER BY INDEX_NAME\n            ").toList

/-- indexes_query with the table name interpolated. -/
def statsIndexesQuery (table_name : List Char) : List Char :=
  statsIdxPre ++ table_name ++ statsIdxPost

namespace SpannerAgent

/-- get_table_statistics (lines 495-582): two interpolated introspection
statements via execute_query; any exception is converted to the error dict
of lines 578-582 (no audit event is emitted by this handler). -/
def get_table_statistics (cfg : AgentConfig) (db : List Char → DbOutcome)
    (table_name : List Char) (now : String) : Tr TableStatsOut :=
  let t1 := execute_query cfg db (statsColumnsQuery table_name) "system"
    "table_stats" now
  match t1.result with
  | .raised e =>
    { result := .errDict
        ("Failed to retrieve table statistics for " ++ String.mk table_name ++
          ": " ++ errStr e) table_name now,
      events := t1.events, dbCalls := t1.dbCalls, snapshots := t1.snapshots }
  | .res r1 =>
    let t2 := execute_query cfg db (statsIndexesQuery table_name) "system"
      "table_stats" now
    match t2.result with
    | .raised e =>
      { result := .errDict
          ("Failed to retrieve table statistics for " ++ String.mk table_name ++
            ": " ++ errStr e) table_name now,
        events := t1.events ++ t2.events, dbCalls := t1.dbCalls ++ t2.dbCalls,
        snapshots := t1.snapshots + t2.snapshots }
    | .res r2 =>
      let cols := r1.data.map (fun row =>
        { name := rowGet row "COLUMN_NAME", type := rowGet row "SPANNER_TYPE",
          nullable := rowGet row "IS_NULLABLE" == "YES",
          position := rowGet row "ORDINAL_POSITION" : StatColumnInfo })
      let idxs := r2.data.map (fun row =>
        { name := rowGet row "INDEX_NAME", type := rowGet row "INDEX_TYPE",
          unique := rowGet row "IS_UNIQUE" == "YES",
          null_filtered := rowGet row "IS_NULL_FILTERED" == "YES" : IndexInfo })
      { result := .stats table_name now r1.data.length cols r2.data.length idxs
          cfg.project_id cfg.instance_id cfg.database_id,
        events := t1.events ++ t2.events, dbCalls := t1.dbCalls ++ t2.dbCalls,
        snapshots := t1.snapshots + t2.snapshots }

end SpannerAgent

/-- Return shape of the run_spanner_query tool (lines 588-616): asdict of the
QueryResult, or the error dict of lines 610-616. -/
inductive RunQueryOut where
  | resultDict (r : QueryResult)
  | errorDict (error : String) (timestamp user_id session_id : String)
deriving DecidableEq

/-- ADK tool run_spanner_query (lines 588-616): catches every exception from
execute_query and converts it into an error-shaped dictionary. -/
def run_spanner_query (cfg : AgentConfig) (db : List Char → DbOutcome)
    (sql : List Char) (user_id session_id : String) (now : String) :
    Tr RunQueryOut :=
  let t := SpannerAgent.execute_query cfg db sql user_id session_id now
  match t.result with
  | .res r =>
    { result := .resultDict r, events := t.events, dbCalls := t.dbCalls,
      snapshots := t.snapshots }
  | .raised e =>
    { result := .errorDict (errStr e) now user_id session_id,
      events := t.events, dbCalls := t.dbCalls, snapshots := t.snapshots }

/-- Return shape of the get_spanner_schema tool (lines 618-632): the schema
structure serialized to JSON, or the error JSON of lines 629-632. -/
inductive SchemaOut where
  | schemaJson (s : SchemaInfo)
  | errorJson (error : String) (timestamp : String)
deriving DecidableEq

/-- ADK tool get_spanner_schema (lines 618-632). -/
def get_spanner_schema (cfg : AgentConfig) (db : List Char → DbOutcome)
    (now : String) : Tr SchemaOut :=
  let t := SpannerAgent.get_schema_info cfg db now
  match t.result with
  | .info si =>
    { result := .schemaJson si, events := t.events, dbCalls := t.dbCalls,
      snapshots := t.snapshots }
  | .raised m =>
    { result := .errorJson ("Failed to retrieve schema: " ++ m) now,
      events := t.events, dbCalls := t.dbCalls, snapshots := t.snapshots }

/-- ADK tool get_database_health (lines 634-648): the agent method always
returns a structure, so the except branch of lines 644-648 is unreachable
and the tool serializes whatever the method returns. -/
def get_database_health (cfg : AgentConfig) (db : List Char → DbOutcome)
    (now : String) : Tr HealthInfo :=
  SpannerAgent.get_database_health cfg db now

/-- ADK tool analyze_query_performance (lines 650-667): the agent method is
total, so the except branch of lines 663-667 is unreachable. -/
def analyze_query_performance (sql : List Char) (now : String) : PerfAnalysis :=
  SpannerAgent.analyze_query_performance sql now

/-- ADK tool get_table_statistics (lines 669-687): the agent method returns
its own error dict on failure, so the except branch of lines 682-687 is
unreachable. -/
def get_table_statistics (cfg : AgentConfig) (db : List Char → DbOutcome)
    (table_name : List Char) (now : String) : Tr TableStatsOut :=
  SpannerAgent.get_table_statistics cfg db table_name now

/-- The leading keyword of an SQL text: the maximal run of word characters
after the leading whitespace. -/
def leadingKeyword (s : List Char) : List Char :=
  (s.dropWhile isSpace).takeWhile wordChar

/-- A concrete configuration used as evaluation fixture: audit logging on,
read-only on, row cap 2. -/
def cfgW : AgentConfig :=
  { project_id := "p", instance_id := "i", database_id := "d",
    read_only := true, max_rows := 2, query_timeout := 30,
    enable_audit := true }

/-- The fixture configuration with audit logging disabled. -/
def cfgNoAudit : AgentConfig :=
  { cfgW with enable_audit := false }

/-- A database collaborator that answers every statement with three rows in
one column A. -/
def dbRows : List Char → DbOutcome :=
  fun _ => DbOutcome.ok ["A"] [["1"], ["2"], ["3"]] 0

/-- A database collaborator whose execute call always raises. -/
def dbBoom : List Char → DbOutcome :=
  fun _ => DbOutcome.err "boom"

/-- A database collaborator for which the health probe succeeds with a
single row. -/
def dbProbe : List Char → DbOutcome :=
  fun _ => DbOutcome.ok ["health_check"] [["1"]] 0

/-- The QueryResult produced by cfgW/dbRows on SELECT 1 (row cap 2 of 3
rows). -/
def qrW : QueryResult :=
  { success := true, data := [[("A", "1")], [("A", "2")]], row_count := 2,
    execution_time := 0, sql := ("SELECT 1").toList, timestamp := "T",
    user_id := "u", session_id := "s", error := none }


/-- One audit event record with the database identity of cfg (the fields
_audit_log assembles). -/
def mkEvent (cfg : AgentConfig) (ty : String) (sql : List Char)
    (u s d : String) : AuditEvent :=
  { event_type := ty, user_id := u, session_id := s, sql := sql, details := d,
    project_id := cfg.project_id, instance_id := cfg.instance_id,
    database_id := cfg.database_id }

/-- The QueryResult of the successful health probe against dbProbe. -/
def qrProbe : QueryResult :=
  { success := true, data := [[("health_check", "1")]], row_count := 1,
    execution_time := 0, sql := ("SELECT 1 as health_check").toList,
    timestamp := "T", user_id := "system", session_id := "health_check",
    error := none }

/-! Completeness lemmas: a structural occurrence of a pattern in the text
makes the corresponding scanner return true. -/

theorem isPrefixOf_self_append (p t : List Char) : p.isPrefixOf (p ++ t) = true := by
  induction p with
  | nil => simp [List.isPrefixOf]
  | cons a p ih => simp [List.isPrefixOf, ih]

theorem isPrefixOf_append_right (p u v : List Char) (h : p.isPrefixOf u = true) :
    p.isPrefixOf (u ++ v) = true := by
  induction p generalizing u with
  | nil => simp [List.isPrefixOf]
  | cons a p ih =>
    cases u with
    | nil => simp [List.isPrefixOf] at h
    | cons b u' =>
      simp only [List.cons_append, List.isPrefixOf, Bool.and_eq_true] at h ⊢
      exact ⟨h.1, ih u' h.2⟩

theorem containsSub_complete (p a b : List Char) :
    containsSub p (a ++ (p ++ b)) = true := by
  induction a with
  | nil =>
    rw [List.nil_append]
    cases hp : p ++ b with
    | nil => simp [containsSub, List.append_eq_nil.mp hp]
    | cons x r =>
      rw [containsSub, ← hp, isPrefixOf_self_append, Bool.true_or]
  | cons c a' ih => simp [containsSub, ih]

theorem containsSub_append_right (p u v : List Char)
    (h : containsSub p u = true) : containsSub p (u ++ v) = true := by
  induction u with
  | nil =>
    have hp : p = [] := by
      simpa [containsSub, List.isEmpty_iff] using h
    subst hp
    cases v <;> simp [containsSub, List.isPrefixOf]
  | cons c u' ih =>
    rw [List.cons_append]
    simp only [containsSub, Bool.or_eq_true] at h ⊢
    rcases h with h | h
    · exact Or.inl (isPrefixOf_append_right p (c :: u') v h)
    · exact Or.inr (ih h)

theorem dropWhile_append_left (q : Char → Bool) (u v : List Char)
    (h : u.dropWhile q ≠ []) :
    (u ++ v).dropWhile q = u.dropWhile q ++ v := by
  induction u with
  | nil => simp [List.dropWhile] at h
  | cons c u' ih =>
    by_cases hc : q c
    · rw [List.cons_append, List.dropWhile_cons, if_pos hc]
      rw [List.dropWhile_cons, if_pos hc] at h ⊢
      exact ih h
    · rw [List.cons_append, List.dropWhile_cons, if_neg hc,
        List.dropWhile_cons, if_neg hc, List.cons_append]

theorem stripEnd_append_right (u v : List Char) (h : stripEndChars v ≠ []) :
    stripEndChars (u ++ v) = u ++ stripEndChars v := by
  unfold stripEndChars at h ⊢
  have hv : v.reverse.dropWhile isSpace ≠ [] := by
    intro hx
    exact h (by rw [hx]; rfl)
  rw [List.reverse_append, dropWhile_append_left isSpace v.reverse u.reverse hv,
    List.reverse_append, List.reverse_reverse]

theorem dropWhile_space_append (w v : List Char)
    (hw : ∀ c ∈ w, isSpace c = true) (hv : v.dropWhile isSpace = v) :
    (w ++ v).dropWhile isSpace = v := by
  induction w with
  | nil => simpa using hv
  | cons c w' ih =>
    rw [List.cons_append, List.dropWhile_cons, if_pos (hw c (by simp))]
    exact ih (fun d hd => hw d (by simp [hd]))

theorem scanKw_tail (kws : List (List Char)) (atB : Bool) (c : Char)
    (t : List Char) (h : scanKw kws (!wordChar c) t = true) :
    scanKw kws atB (c :: t) = true := by
  simp [scanKw, h]

theorem scanKw_at_head (kws : List (List Char)) (kw b : List Char)
    (hmem : kw ∈ kws) (hne : kw ≠ [])
    (hb : b = [] ∨ ∃ c b', b = c :: b' ∧ wordChar c = false) :
    scanKw kws true (kw ++ b) = true := by
  have hhit : kwHitHere kw (kw ++ b) = true := by
    unfold kwHitHere
    rw [isPrefixOf_self_append, List.drop_left, Bool.true_and]
    rcases hb with rfl | ⟨c, b', rfl, hw⟩
    · rfl
    · simp [hw]
  cases kw with
  | nil => exact absurd rfl hne
  | cons k0 ktl =>
    rw [List.cons_append, scanKw, Bool.true_and]
    have : (kws.any fun kw => kwHitHere kw (k0 :: (ktl ++ b))) = true :=
      List.any_eq_true.mpr ⟨k0 :: ktl, hmem, hhit⟩
    rw [this, Bool.true_or]

theorem scanKw_complete (kws : List (List Char)) (kw : List Char)
    (hmem : kw ∈ kws) (hne : kw ≠ []) (a : List Char) :
    ∀ (b : List Char) (atB : Bool),
      (a = [] → atB = true) →
      (∀ a' c, a = a' ++ [c] → wordChar c = false) →
      (b = [] ∨ ∃ c b', b = c :: b' ∧ wordChar c = false) →
      scanKw kws atB (a ++ (kw ++ b)) = true := by
  induction a with
  | nil =>
    intro b atB h1 _ hb
    rw [h1 rfl, List.nil_append]
    exact scanKw_at_head kws kw b hmem hne hb
  | cons c a' ih =>
    intro b atB _ h2 hb
    rw [List.cons_append]
    apply scanKw_tail
    apply ih b (!wordChar c)
    · intro ha'
      have : wordChar c = false := h2 [] c (by rw [ha']; rfl)
      simp [this]
    · intro a'' d hd
      exact h2 (c :: a'') d (by rw [hd]; rfl)
    · exact hb

theorem blockClose_mid (m b : List Char) (hm : ∀ c ∈ m, c ≠ '\n') :
    blockClose (m ++ ('*' :: '/' :: b)) = true := by
  induction m with
  | nil => simp [blockClose]
  | cons c m' ih =>
    rw [List.cons_append, blockClose]
    by_cases h1 : c = '*' ∧ (m' ++ ('*' :: '/' :: b)).head? = some '/'
    · rw [if_pos h1]
    · rw [if_neg h1, if_neg (hm c (by simp))]
      exact ih (fun d hd => hm d (by simp [hd]))

theorem blockCommentHit_complete (a m b : List Char) (hm : ∀ c ∈ m, c ≠ '\n') :
    blockCommentHit (a ++ ('/' :: '*' :: (m ++ ('*' :: '/' :: b)))) = true := by
  induction a with
  | nil =>
    rw [List.nil_append, blockCommentHit]
    have : blockStart ('/' :: '*' :: (m ++ ('*' :: '/' :: b))) = true := by
      rw [blockStart]
      exact blockClose_mid m b hm
    rw [this, Bool.true_or]
  | cons c a' ih => simp [blockCommentHit, ih]

theorem semiClose_complete (w r : List Char)
    (hw : ∀ c ∈ w, isSpace c = true ∧ c ≠ '\n')
    (hr : r = [] ∨ ∃ r', r = '\n' :: r') :
    semiClose (w ++ r) = true := by
  induction w with
  | nil =>
    rcases hr with rfl | ⟨r', rfl⟩
    · rfl
    · simp [semiClose]
  | cons c w' ih =>
    have hc := hw c (by simp)
    rw [List.cons_append, semiClose, if_neg hc.2, if_pos hc.1]
    exact ih (fun d hd => hw d (by simp [hd]))

theorem semiEolHit_complete (a w r : List Char)
    (hw : ∀ c ∈ w, isSpace c = true ∧ c ≠ '\n')
    (hr : r = [] ∨ ∃ r', r = '\n' :: r') :
    semiEolHit (a ++ (';' :: (w ++ r))) = true := by
  induction a with
  | nil =>
    rw [List.nil_append, semiEolHit]
    simp [semiClose_complete w r hw hr]
  | cons c a' ih => simp [semiEolHit, ih]

theorem unionAt_complete (c1 c2 : Char) (w1 w2 b : List Char)
    (h1 : isSpace c1 = true) (hw1 : ∀ c ∈ w1, isSpace c = true)
    (h2 : isSpace c2 = true) (hw2 : ∀ c ∈ w2, isSpace c = true) :
    unionAt (("UNION").toList ++
      (c1 :: (w1 ++ (("ALL").toList ++
        (c2 :: (w2 ++ (("SELECT").toList ++ b))))))) = true := by
  have hd5 : (("UNION").toList ++
      (c1 :: (w1 ++ (("ALL").toList ++
        (c2 :: (w2 ++ (("SELECT").toList ++ b))))))).drop 5 =
      c1 :: (w1 ++ (("ALL").toList ++
        (c2 :: (w2 ++ (("SELECT").toList ++ b))))) :=
    List.drop_left ("UNION").toList _
  have hall : (w1 ++ (("ALL").toList ++
      (c2 :: (w2 ++ (("SELECT").toList ++ b))))).dropWhile isSpace =
      ("ALL").toList ++ (c2 :: (w2 ++ (("SELECT").toList ++ b))) :=
    dropWhile_space_append w1 _ hw1 rfl
  have hd3 : (("ALL").toList ++
      (c2 :: (w2 ++ (("SELECT").toList ++ b)))).drop 3 =
      c2 :: (w2 ++ (("SELECT").toList ++ b)) :=
    List.drop_left ("ALL").toList _
  have hsel : (w2 ++ (("SELECT").toList ++ b)).dropWhile isSpace =
      ("SELECT").toList ++ b :=
    dropWhile_space_append w2 _ hw2 rfl
  simp only [unionAt, isPrefixOf_self_append, Bool.true_and, hd5, hall, hd3,
    hsel, wsTail, h1, h2, if_true]

theorem unionHit_complete (a : List Char) (c1 c2 : Char) (w1 w2 b : List Char)
    (h1 : isSpace c1 = true) (hw1 : ∀ c ∈ w1, isSpace c = true)
    (h2 : isSpace c2 = true) (hw2 : ∀ c ∈ w2, isSpace c = true) :
    unionHit (a ++ (("UNION").toList ++
      (c1 :: (w1 ++ (("ALL").toList ++
        (c2 :: (w2 ++ (("SELECT").toList ++ b))))))) ) = true := by
  induction a with
  | nil =>
    rw [List.nil_append]
    cases hu : ("UNION").toList ++
        (c1 :: (w1 ++ (("ALL").toList ++
          (c2 :: (w2 ++ (("SELECT").toList ++ b)))))) with
    | nil => simp at hu
    | cons x r =>
      rw [unionHit, ← hu, unionAt_complete c1 c2 w1 w2 b h1 hw1 h2 hw2,
        Bool.true_or]
  | cons c a' ih =>
    rw [List.cons_append, unionHit, ih, Bool.or_true]

theorem kwOccurs_scan (kws : List (List Char)) (t : List Char)
    (hne : ∀ kw ∈ kws, kw ≠ []) (h : KwOccurs kws t) :
    scanKw kws true t = true := by
  obtain ⟨a, kw, b, rfl, hmem, ha, hb⟩ := h
  exact scanKw_complete kws kw hmem (hne kw hmem) a b true (fun _ => rfl) ha hb

theorem mutation_kws_ne_nil : ∀ kw ∈ MUTATION_KWS, kw ≠ [] := by
  intro kw h
  fin_cases h <;> simp

theorem proc_kws_ne_nil : ∀ kw ∈ PROC_KWS, kw ≠ [] := by
  intro kw h
  fin_cases h <;> simp

theorem dangerousAny_of_occurs (t : List Char) (h : DenylistOccurs t) :
    dangerousAny t = true := by
  unfold dangerousAny
  rcases h with h | h | h | h | h | h | h | h
  · rw [kwOccurs_scan MUTATION_KWS t mutation_kws_ne_nil h]
    simp
  · rw [kwOccurs_scan PROC_KWS t proc_kws_ne_nil h]
    simp
  · obtain ⟨a, b, rfl⟩ := h
    have : lineCommentHit (a ++ ('-' :: '-' :: b)) = true :=
      containsSub_complete ("--").toList a b
    rw [this]
    simp
  · obtain ⟨a, m, b, rfl, hm⟩ := h
    rw [blockCommentHit_complete a m b hm]
    simp
  · obtain ⟨a, w, r, rfl, hw, hr⟩ := h
    rw [semiEolHit_complete a w r hw hr]
    simp
  · obtain ⟨a, c1, w1, c2, w2, b, rfl, h1, hw1, h2, hw2⟩ := h
    rw [unionHit_complete a c1 c2 w1 w2 b h1 hw1 h2 hw2]
    simp
  · obtain ⟨a, b, rfl⟩ := h
    have hinfo : infoSchemaHit
        (a ++ (("INFORMATION_SCHEMA.TABLES").toList ++ b)) = true := by
      rw [infoSchemaHit,
        containsSub_complete ("INFORMATION_SCHEMA.TABLES").toList a b,
        Bool.true_or]
    rw [hinfo]
    simp
  · obtain ⟨a, b, rfl⟩ := h
    have hinfo : infoSchemaHit
        (a ++ (("INFORMATION_SCHEMA.COLUMNS").toList ++ b)) = true := by
      rw [infoSchemaHit,
        containsSub_complete ("INFORMATION_SCHEMA.COLUMNS").toList a b,
        Bool.or_true]
    rw [hinfo]
    simp

theorem firstDangerous_some_of_any (t : List Char)
    (h : dangerousAny t = true) : ∃ p, firstDangerous t = some p := by
  unfold dangerousAny at h
  unfold firstDangerous
  by_cases h1 : scanKw MUTATION_KWS true t = true
  · rw [if_pos h1]; exact ⟨_, rfl⟩
  rw [if_neg h1]
  by_cases h2 : scanKw PROC_KWS true t = true
  · rw [if_pos h2]; exact ⟨_, rfl⟩
  rw [if_neg h2]
  by_cases h3 : lineCommentHit t = true
  · rw [if_pos h3]; exact ⟨_, rfl⟩
  rw [if_neg h3]
  by_cases h4 : blockCommentHit t = true
  · rw [if_pos h4]; exact ⟨_, rfl⟩
  rw [if_neg h4]
  by_cases h5 : semiEolHit t = true
  · rw [if_pos h5]; exact ⟨_, rfl⟩
  rw [if_neg h5]
  by_cases h6 : unionHit t = true
  · rw [if_pos h6]; exact ⟨_, rfl⟩
  rw [if_neg h6]
  by_cases h7 : infoSchemaHit t = true
  · rw [if_pos h7]; exact ⟨_, rfl⟩
  simp_all

theorem validate_false_of_dangerous (sql : List Char) (ctx : SecurityContext)
    (h : dangerousAny (sqlUpper sql) = true) :
    (validate_query sql ctx).1 = false := by
  obtain ⟨p, hp⟩ := firstDangerous_some_of_any (sqlUpper sql) h
  simp [validate_query, hp]

/-! Case lemmas for the execution wrapper. -/

theorem execute_query_rejected (cfg : AgentConfig) (db : List Char → DbOutcome)
    (sql : List Char) (u s now : String)
    (h : (validate_query sql (SpannerAgent.createSecurityContext cfg u s)).1 = false) :
    SpannerAgent.execute_query cfg db sql u s now =
      { result := .raised (.valueError ("Query rejected for security reasons: " ++
          (validate_query sql (SpannerAgent.createSecurityContext cfg u s)).2)),
        events := auditLog cfg "query_rejected" sql u s
          (validate_query sql (SpannerAgent.createSecurityContext cfg u s)).2,
        dbCalls := [], snapshots := 0 } := by
  unfold SpannerAgent.execute_query
  rw [if_pos h]

theorem execute_query_db_err (cfg : AgentConfig) (db : List Char → DbOutcome)
    (sql : List Char) (u s now : String) (e : String)
    (hv : (validate_query sql (SpannerAgent.createSecurityContext cfg u s)).1 = true)
    (hdb : db sql = DbOutcome.err e) :
    SpannerAgent.execute_query cfg db sql u s now =
      { result := .raised (.runtimeError ("Query execution failed: " ++ e) e),
        events := auditLog cfg "query_execution_start" sql u s "" ++
          auditLog cfg "query_execution_error" sql u s
            ("Query execution failed: " ++ e),
        dbCalls := [sql], snapshots := 1 } := by
  unfold SpannerAgent.execute_query
  rw [if_neg (by simp [hv]), hdb]

theorem execute_query_db_ok (cfg : AgentConfig) (db : List Char → DbOutcome)
    (sql : List Char) (u s now : String) (fields : List String)
    (rows : List (List String)) (elapsed : Nat)
    (hv : (validate_query sql (SpannerAgent.createSecurityContext cfg u s)).1 = true)
    (hdb : db sql = DbOutcome.ok fields rows elapsed) :
    SpannerAgent.execute_query cfg db sql u s now =
      { result := .res
          { success := true,
            data := (rows.take cfg.max_rows).map (fun r => List.zip fields r),
            row_count := ((rows.take cfg.max_rows).map
              (fun r => List.zip fields r)).length,
            execution_time := elapsed, sql := sql, timestamp := now,
            user_id := u, session_id := s, error := none },
        events := auditLog cfg "query_execution_start" sql u s "" ++
          auditLog cfg "query_execution_success" sql u s
            ("Returned " ++ toString ((rows.take cfg.max_rows).map
              (fun r => List.zip fields r)).length ++ " rows in " ++
              toString elapsed ++ "s"),
        dbCalls := [sql], snapshots := 1 } := by
  unfold SpannerAgent.execute_query
  rw [if_neg (by simp [hv]), hdb]
  rfl

/-! Claim theorems. -/

/-- C1, counterexample: the one-word text SELECT has leading keyword SELECT,
matches no denylist pattern, contains SELECT once and is 6 characters long,
yet validate_query rejects it under a read-only context, because the
statement-shape pattern requires at least one whitespace character after the
keyword. -/
theorem C1_counterexample :
    leadingKeyword (("SELECT").toList) = ("SELECT").toList ∧
    dangerousAny (sqlUpper (("SELECT").toList)) = false ∧
    countSelect (sqlUpper (("SELECT").toList)) ≤ 3 ∧
    (("SELECT").toList).length ≤ 10000 ∧
    ({ user_id := "u", session_id := "s" } : SecurityContext).read_only = true ∧
    validate_query (("SELECT").toList) { user_id := "u", session_id := "s" } =
      (false, "Read-only mode: Only SELECT queries are allowed") := by
  decide

/-- C1 (amended): for every SQL text whose upper-cased stripped form starts
with the keyword SELECT followed by at least one whitespace character, which
matches no denylist pattern, contains SELECT at most 3 times, and whose raw
length is at most 10000, validate_query accepts under any read-only
context. -/
theorem C1_select_accepted (sql : List Char) (ctx : SecurityContext)
    (c : Char) (r : List Char)
    (hro : ctx.read_only = true)
    (hd : firstDangerous (sqlUpper sql) = none)
    (hsel : sqlUpper sql = ("SELECT").toList ++ (c :: r))
    (hws : isSpace c = true)
    (hcount : countSelect (sqlUpper sql) ≤ 3)
    (hlen : sql.length ≤ 10000) :
    validate_query sql ctx = (true, "") := by
  have hallow : allowedAny (sqlUpper sql) = true := by
    have hm : matchStart (("SELECT").toList) (sqlUpper sql) = true := by
      rw [hsel]
      unfold matchStart
      dsimp only
      have hcons : ("SELECT").toList ++ (c :: r) =
          'S' :: ((("ELECT").toList) ++ (c :: r)) := rfl
      rw [hcons, List.dropWhile_cons, if_neg (by decide), ← hcons,
        isPrefixOf_self_append, Bool.true_and, List.drop_left]
      exact hws
    simp only [allowedAny, ALLOWED_KWS, List.any_cons, hm, Bool.true_or]
  have hnc : ¬(countSelect (sqlUpper sql) > 3) := by omega
  have hnl : ¬(sql.length > 10000) := by omega
  simp [validate_query, hd, hro, hallow, hnc, hnl]

/-- C1 witness: SELECT 1 satisfies the amended hypotheses and is accepted. -/
theorem C1_witness :
    validate_query (("SELECT 1").toList) { user_id := "u", session_id := "s" } =
      (true, "") :=
  C1_select_accepted (("SELECT 1").toList) { user_id := "u", session_id := "s" }
    ' ' ['1'] rfl (by decide) (by decide) (by decide) (by decide) (by decide)

/-- C3, counterexample: the text SELECT with a block comment spanning two
lines contains a block comment, yet validate_query accepts it under the
default read-only context: the pattern for block comments does not match
across a newline (no re.DOTALL). -/
theorem C3_counterexample :
    (∃ a m b, sqlUpper (("SELECT /* a\nb */ 1").toList) =
        a ++ ('/' :: '*' :: (m ++ ('*' :: '/' :: b))) ∧ '\n' ∈ m) ∧
    validate_query (("SELECT /* a\nb */ 1").toList)
      { user_id := "u", session_id := "s" } = (true, "") := by
  constructor
  · exact ⟨("SELECT ").toList, (" A\nB ").toList, (" 1").toList,
      by decide, by decide⟩
  · decide

/-- C3 (amended): for every SQL text whose upper-cased stripped form
contains a denylist occurrence (mutation keyword or stored-procedure marker
with word boundaries, single-line comment marker, block comment within one
line, line-final statement separator, UNION ALL SELECT idiom, or an
INFORMATION_SCHEMA view name) and every SecurityContext regardless of its
read_only flag, validate_query rejects.  Case-insensitivity is realized by
the upper-casing the validator applies before scanning. -/
theorem C3_denylist_rejected (sql : List Char) (ctx : SecurityContext)
    (h : DenylistOccurs (sqlUpper sql)) :
    (validate_query sql ctx).1 = false :=
  validate_false_of_dangerous sql ctx (dangerousAny_of_occurs _ h)

/-- C3 witness: the lower-case text drop table users is rejected even with
read_only off. -/
theorem C3_witness :
    (validate_query (("drop table users").toList)
      { user_id := "u", session_id := "s", read_only := false }).1 = false :=
  C3_denylist_rejected (("drop table users").toList)
    { user_id := "u", session_id := "s", read_only := false }
    (Or.inl ⟨[], ("DROP").toList, (" TABLE USERS").toList, by decide,
      by decide,
      by intro a' c h; exact absurd h (by simp),
      Or.inr ⟨' ', ("TABLE USERS").toList, by decide, by decide⟩⟩)

/-- C4: every successful QueryResult returned by execute_query has
row_count at most the configured max_rows and row_count equal to the number
of rows present in data (truncation, not error). -/
theorem C4_row_cap (cfg : AgentConfig) (db : List Char → DbOutcome)
    (sql : List Char) (u s now : String) (r : QueryResult)
    (h : (SpannerAgent.execute_query cfg db sql u s now).result =
      ExecResult.res r) :
    r.row_count ≤ cfg.max_rows ∧ r.row_count = r.data.length := by
  by_cases hv : (validate_query sql (SpannerAgent.createSecurityContext cfg u s)).1 = false
  · rw [execute_query_rejected cfg db sql u s now hv] at h
    simp at h
  · have hv' : (validate_query sql (SpannerAgent.createSecurityContext cfg u s)).1 = true := by
      cases hb : (validate_query sql (SpannerAgent.createSecurityContext cfg u s)).1 with
      | false => exact absurd hb hv
      | true => rfl
    cases hdb : db sql with
    | err e =>
      rw [execute_query_db_err cfg db sql u s now e hv' hdb] at h
      simp at h
    | ok fields rows elapsed =>
      rw [execute_query_db_ok cfg db sql u s now fields rows elapsed hv' hdb] at h
      simp only [ExecResult.res.injEq] at h
      subst h
      refine ⟨?_, rfl⟩
      rw [List.length_map, List.length_take]
      exact Nat.min_le_left _ _

/-- C4 witness: with row cap 2 and three available rows, the returned
result has row_count 2 equal to its data length. -/
theorem C4_witness : qrW.row_count ≤ cfgW.max_rows ∧
    qrW.row_count = qrW.data.length :=
  C4_row_cap cfgW dbRows (("SELECT 1").toList) "u" "s" "T" qrW (by decide)

/-- C5: if the Policy Engine rejects a statement, execute_query raises a
ValueError while opening no snapshot and sending nothing to the database;
and every statement execute_query does send to the database passed
validate_query under the same SecurityContext. -/
theorem C5_no_db_without_validation (cfg : AgentConfig)
    (db : List Char → DbOutcome) (sql : List Char) (u s now : String) :
    ((validate_query sql (SpannerAgent.createSecurityContext cfg u s)).1 = false →
      (∃ m, (SpannerAgent.execute_query cfg db sql u s now).result =
        ExecResult.raised (ExecError.valueError m)) ∧
      (SpannerAgent.execute_query cfg db sql u s now).dbCalls = [] ∧
      (SpannerAgent.execute_query cfg db sql u s now).snapshots = 0) ∧
    (∀ q ∈ (SpannerAgent.execute_query cfg db sql u s now).dbCalls,
      (validate_query q (SpannerAgent.createSecurityContext cfg u s)).1 = true) := by
  constructor
  · intro hv
    rw [execute_query_rejected cfg db sql u s now hv]
    exact ⟨⟨_, rfl⟩, rfl, rfl⟩
  · intro q hq
    by_cases hv : (validate_query sql (SpannerAgent.createSecurityContext cfg u s)).1 = false
    · rw [execute_query_rejected cfg db sql u s now hv] at hq
      simp at hq
    · have hv' : (validate_query sql (SpannerAgent.createSecurityContext cfg u s)).1 = true := by
        cases hb : (validate_query sql (SpannerAgent.createSecurityContext cfg u s)).1 with
        | false => exact absurd hb hv
        | true => rfl
      cases hdb : db sql with
      | err e =>
        rw [execute_query_db_err cfg db sql u s now e hv' hdb] at hq
        simp at hq
        subst hq
        exact hv'
      | ok fields rows elapsed =>
        rw [execute_query_db_ok cfg db sql u s now fields rows elapsed hv' hdb] at hq
        simp at hq
        subst hq
        exact hv'

/-- C5 witness: a DROP statement is rejected with no database interaction. -/
theorem C5_witness :
    (∃ m, (SpannerAgent.execute_query cfgW dbRows (("DROP TABLE users").toList)
      "u" "s" "T").result = ExecResult.raised (ExecError.valueError m)) ∧
    (SpannerAgent.execute_query cfgW dbRows (("DROP TABLE users").toList)
      "u" "s" "T").dbCalls = [] ∧
    (SpannerAgent.execute_query cfgW dbRows (("DROP TABLE users").toList)
      "u" "s" "T").snapshots = 0 :=
  (C5_no_db_without_validation cfgW dbRows (("DROP TABLE users").toList)
    "u" "s" "T").1 (by decide)

/-- C8, counterexample: for the accepted statement SELECT 1 against a
database that raises boom, the wrapped error message is
"Query execution failed: boom" and does not contain the original SQL
text. -/
theorem C8_counterexample :
    (SpannerAgent.execute_query cfgW dbBoom (("SELECT 1").toList) "u" "s" "T").result =
      ExecResult.raised (ExecError.runtimeError ("Query execution failed: boom") "boom") ∧
    containsSub (("SELECT 1").toList)
      (("Query execution failed: boom").toList) = false := by
  decide

/-- C8 (amended): when an accepted statement fails in the database,
execute_query propagates a RuntimeError whose message is the
execution-failure marker followed by the underlying error text (the
original SQL is not part of the message), with the underlying error
preserved as the direct cause. -/
theorem C8_exec_error_wrapped (cfg : AgentConfig) (db : List Char → DbOutcome)
    (sql : List Char) (u s now : String) (e : String)
    (hv : (validate_query sql (SpannerAgent.createSecurityContext cfg u s)).1 = true)
    (hdb : db sql = DbOutcome.err e) :
    (SpannerAgent.execute_query cfg db sql u s now).result =
      ExecResult.raised
        (ExecError.runtimeError ("Query execution failed: " ++ e) e) := by
  rw [execute_query_db_err cfg db sql u s now e hv hdb]

/-- C8 witness: the amended statement evaluated on SELECT 1 and a failing
database. -/
theorem C8_witness :
    (SpannerAgent.execute_query cfgW dbBoom (("SELECT 1").toList) "u" "s" "T").result =
      ExecResult.raised
        (ExecError.runtimeError ("Query execution failed: boom") "boom") :=
  C8_exec_error_wrapped cfgW dbBoom (("SELECT 1").toList) "u" "s" "T" "boom"
    (by decide) rfl

/-- C10, counterexample: with audit logging disabled in the configuration, a
rejected call to execute_query emits no audit event at all. -/
theorem C10_counterexample :
    (SpannerAgent.execute_query cfgNoAudit dbRows (("DROP TABLE users").toList)
      "u" "s" "T").events = [] ∧
    (∃ m, (SpannerAgent.execute_query cfgNoAudit dbRows
      (("DROP TABLE users").toList) "u" "s" "T").result =
        ExecResult.raised (ExecError.valueError m)) := by
  refine ⟨by decide, ⟨"Query rejected for security reasons: Query contains forbidden pattern: \\b(DELETE|DROP|TRUNCATE|ALTER|CREATE|INSERT|UPDATE|GRANT|REVOKE)\\b", by decide⟩⟩

/-- C10 (amended): when audit logging is enabled, every call to
execute_query emits its lifecycle audit events before returning: exactly one
query_rejected event on rejection; on acceptance a query_execution_start
event followed by exactly one completion event (success or error). -/
theorem C10_audit_events (cfg : AgentConfig) (db : List Char → DbOutcome)
    (sql : List Char) (u s now : String)
    (ha : cfg.enable_audit = true) :
    ((validate_query sql (SpannerAgent.createSecurityContext cfg u s)).1 = false →
      (SpannerAgent.execute_query cfg db sql u s now).events =
        [mkEvent cfg "query_rejected" sql u s
          (validate_query sql (SpannerAgent.createSecurityContext cfg u s)).2]) ∧
    (∀ e, (validate_query sql (SpannerAgent.createSecurityContext cfg u s)).1 = true →
      db sql = DbOutcome.err e →
      (SpannerAgent.execute_query cfg db sql u s now).events =
        [mkEvent cfg "query_execution_start" sql u s "",
         mkEvent cfg "query_execution_error" sql u s
           ("Query execution failed: " ++ e)]) ∧
    (∀ fields rows elapsed,
      (validate_query sql (SpannerAgent.createSecurityContext cfg u s)).1 = true →
      db sql = DbOutcome.ok fields rows elapsed →
      (SpannerAgent.execute_query cfg db sql u s now).events =
        [mkEvent cfg "query_execution_start" sql u s "",
         mkEvent cfg "query_execution_success" sql u s
           ("Returned " ++ toString ((rows.take cfg.max_rows).map
              (fun r => List.zip fields r)).length ++ " rows in " ++
              toString elapsed ++ "s")]) := by
  refine ⟨?_, ?_, ?_⟩
  · intro hv
    rw [execute_query_rejected cfg db sql u s now hv]
    simp [auditLog, mkEvent, ha]
  · intro e hv hdb
    rw [execute_query_db_err cfg db sql u s now e hv hdb]
    simp [auditLog, mkEvent, ha]
  · intro fields rows elapsed hv hdb
    rw [execute_query_db_ok cfg db sql u s now fields rows elapsed hv hdb]
    simp [auditLog, mkEvent, ha]

/-- C10 witness: with audit on, the rejected DROP call emits exactly the
query_rejected event. -/
theorem C10_witness :
    (SpannerAgent.execute_query cfgW dbRows (("DROP TABLE users").toList)
      "u" "s" "T").events =
      [mkEvent cfgW "query_rejected" (("DROP TABLE users").toList) "u" "s"
        (validate_query (("DROP TABLE users").toList)
          (SpannerAgent.createSecurityContext cfgW "u" "s")).2] :=
  (C10_audit_events cfgW dbRows (("DROP TABLE users").toList) "u" "s" "T"
    rfl).1 (by decide)

/-- C6 (code bug): for a database on which the probe SELECT 1 succeeds,
get_database_health still reports status unhealthy, because line 404 calls
isoformat() on QueryResult.timestamp, which is already a str, raising
AttributeError inside the inner try; the spec (healthy when the probe
succeeds) is the documented intent. -/
theorem C6_health_bug :
    (∃ r, (SpannerAgent.execute_query cfgW dbProbe
        (("SELECT 1 as health_check").toList) "system" "health_check" "T").result =
      ExecResult.res r ∧ r.success = true) ∧
    (SpannerAgent.get_database_health cfgW dbProbe "T").result.status =
      "unhealthy" ∧
    (SpannerAgent.get_database_health cfgW dbProbe "T").result.connection_error =
      some "\x27str\x27 object has no attribute \x27isoformat\x27" := by
  refine ⟨⟨qrProbe, by decide, rfl⟩, by decide, by decide⟩

/-- C7, counterexample: two calls to analyze_query_performance on the same
text at different wall-clock instants differ (in the timestamp field), so
the full output is not a function of the query text alone. -/
theorem C7_counterexample :
    SpannerAgent.analyze_query_performance (("SELECT 1").toList) "A" ≠
      SpannerAgent.analyze_query_performance (("SELECT 1").toList) "B" := by
  decide

/-- C7 (amended): the analysis content of analyze_query_performance
(recommendations, complexity, estimated cost, echoed sql, absent execution
plan) is a deterministic pure function of the query text, identical across
calls; only the timestamp field records the wall clock.  The definition
takes no database collaborator: the analysis never touches the database. -/
theorem C7_analysis_pure (sql : List Char) (n1 n2 : String) :
    (SpannerAgent.analyze_query_performance sql n1).recommendations =
      (SpannerAgent.analyze_query_performance sql n2).recommendations ∧
    (SpannerAgent.analyze_query_performance sql n1).complexity =
      (SpannerAgent.analyze_query_performance sql n2).complexity ∧
    (SpannerAgent.analyze_query_performance sql n1).estimated_cost =
      (SpannerAgent.analyze_query_performance sql n2).estimated_cost ∧
    (SpannerAgent.analyze_query_performance sql n1).sql = sql ∧
    (SpannerAgent.analyze_query_performance sql n1).execution_plan = none ∧
    (SpannerAgent.analyze_query_performance sql n1).timestamp = n1 :=
  ⟨rfl, rfl, rfl, rfl, rfl, rfl⟩

/-- C9: each caller-facing tool function returns a structured value for
every behavior of the underlying operation: run_spanner_query and
get_spanner_schema convert a raised error into their error dictionary and
wrap a successful result, and the other three tools return the structure
the (total) agent method produces. -/
theorem C9_tool_boundaries (cfg : AgentConfig) (db : List Char → DbOutcome)
    (sql tn : List Char) (u s now : String) :
    ((∃ r, (SpannerAgent.execute_query cfg db sql u s now).result =
        ExecResult.res r ∧
        (run_spanner_query cfg db sql u s now).result =
          RunQueryOut.resultDict r) ∨
      (∃ e, (SpannerAgent.execute_query cfg db sql u s now).result =
        ExecResult.raised e ∧
        (run_spanner_query cfg db sql u s now).result =
          RunQueryOut.errorDict (errStr e) now u s)) ∧
    ((∃ si, (SpannerAgent.get_schema_info cfg db now).result =
        SchemaResult.info si ∧
        (get_spanner_schema cfg db now).result = SchemaOut.schemaJson si) ∨
      (∃ m, (SpannerAgent.get_schema_info cfg db now).result =
        SchemaResult.raised m ∧
        (get_spanner_schema cfg db now).result =
          SchemaOut.errorJson ("Failed to retrieve schema: " ++ m) now)) ∧
    (get_database_health cfg db now).result =
      (SpannerAgent.get_database_health cfg db now).result ∧
    analyze_query_performance sql now =
      SpannerAgent.analyze_query_performance sql now ∧
    (get_table_statistics cfg db tn now).result =
      (SpannerAgent.get_table_statistics cfg db tn now).result := by
  refine ⟨?_, ?_, rfl, rfl, rfl⟩
  · cases hr : (SpannerAgent.execute_query cfg db sql u s now).result with
    | res r => exact Or.inl ⟨r, rfl, by simp [run_spanner_query, hr]⟩
    | raised e => exact Or.inr ⟨e, rfl, by simp [run_spanner_query, hr]⟩
  · cases hr : (SpannerAgent.get_schema_info cfg db now).result with
    | info si => exact Or.inl ⟨si, rfl, by simp [get_spanner_schema, hr]⟩
    | raised m => exact Or.inr ⟨m, rfl, by simp [get_spanner_schema, hr]⟩

set_option maxRecDepth 8000 in
/-- C2: the columns introspection statement of get_schema_info and of
get_table_statistics contains the literal INFORMATION_SCHEMA.COLUMNS, which
matches the denylist, so execute_query rejects it before the database is
contacted: get_schema_info always raises the wrapped RuntimeError (with no
database call) and get_table_statistics always returns its error dictionary
(with no database call), for every configuration, database state and table
name. -/
theorem C2_introspection_blocked (cfg : AgentConfig)
    (db : List Char → DbOutcome) (now : String) (tn : List Char) :
    (SpannerAgent.get_schema_info cfg db now).result =
      SchemaResult.raised ("Failed to retrieve schema information: Query rejected for security reasons: Query contains forbidden pattern: INFORMATION_SCHEMA\\.(TABLES|COLUMNS)") ∧
    (SpannerAgent.get_schema_info cfg db now).dbCalls = [] ∧
    (∃ m, (SpannerAgent.get_table_statistics cfg db tn now).result =
      TableStatsOut.errDict m tn now) ∧
    (SpannerAgent.get_table_statistics cfg db tn now).dbCalls = [] := by
  have hfd : firstDangerous (sqlUpper schemaTablesQuery) =
      some "INFORMATION_SCHEMA\\.(TABLES|COLUMNS)" := by decide
  have hv1 : (validate_query schemaTablesQuery
      (SpannerAgent.createSecurityContext cfg "system" "schema_query")).1 = false := by
    simp [validate_query, hfd]
  have hsplit : sqlUpper (statsColumnsQuery tn) =
      (((statsColsPre.map upperChar).dropWhile isSpace) ++ tn.map upperChar) ++
        stripEndChars (statsColsPost.map upperChar) := by
    unfold sqlUpper stripChars statsColumnsQuery
    rw [List.map_append, List.map_append, List.append_assoc]
    rw [dropWhile_append_left isSpace (statsColsPre.map upperChar) _ (by decide)]
    rw [← List.append_assoc]
    rw [stripEnd_append_right _ _ (by decide)]
  have hic : containsSub (("INFORMATION_SCHEMA.COLUMNS").toList)
      (sqlUpper (statsColumnsQuery tn)) = true := by
    rw [hsplit]
    apply containsSub_append_right
    apply containsSub_append_right
    decide
  have hda : dangerousAny (sqlUpper (statsColumnsQuery tn)) = true := by
    have hinfo : infoSchemaHit (sqlUpper (statsColumnsQuery tn)) = true := by
      rw [infoSchemaHit, hic, Bool.or_true]
    rw [dangerousAny, hinfo]
    simp
  have hv3 : (validate_query (statsColumnsQuery tn)
      (SpannerAgent.createSecurityContext cfg "system" "table_stats")).1 = false :=
    validate_false_of_dangerous _ _ hda
  refine ⟨?_, ?_, ?_, ?_⟩
  · unfold SpannerAgent.get_schema_info
    rw [execute_query_rejected cfg db schemaTablesQuery "system" "schema_query"
      now hv1]
    rfl
  · unfold SpannerAgent.get_schema_info
    rw [execute_query_rejected cfg db schemaTablesQuery "system" "schema_query"
      now hv1]
  · unfold SpannerAgent.get_table_statistics
    rw [execute_query_rejected cfg db (statsColumnsQuery tn) "system"
      "table_stats" now hv3]
    exact ⟨_, rfl⟩
  · unfold SpannerAgent.get_table_statistics
    rw [execute_query_rejected cfg db (statsColumnsQuery tn) "system"
      "table_stats" now hv3]
